import Mathlib

/-!
Verification development for the dbus-shelly meter driver (src/meter.py).

The Python module is shallowly embedded: dictionaries become association
lists, Python exceptions become an explicit error type threaded through
return values, object mutation becomes explicit state passing, and numeric
telemetry values are modelled as exact rationals.  Each definition mirrors
one function of the source, keeping its statement order, its try/except
structure and its data flow.
-/

/-- Python exception kinds raised by the code paths modelled here. -/
inductive PyErr where
  | keyError
  | typeError
  | attributeError
  | nameError
  | valueError
  | indexError
deriving DecidableEq, Repr

/-- Outcome of a Python call: a normal return value or a raised exception. -/
inductive POut (α : Type) where
  | ret (a : α)
  | exn (e : PyErr)
deriving Repr

/-- JSON-ish Python values carried in telemetry frames and service items.
Numbers are exact rationals (the claims under study involve only exact
arithmetic on frame fields). -/
inductive Json where
  | null
  | bool (b : Bool)
  | num (q : ℚ)
  | str (s : String)
  | arr (l : List Json)
  | obj (l : List (String × Json))

/-- Python subscript `d[k]` with a string key: KeyError when the key is
missing from a dict, TypeError when the value is not a dict. -/
def Json.getItem : Json → String → Except PyErr Json
  | .obj l, k =>
      match List.lookup k l with
      | some v => .ok v
      | none => .error .keyError
  | _, _ => .error .typeError

/-- Python `d.get(k)`: `None` (here `none`) when absent; AttributeError when
the receiver is not a dict. -/
def Json.dictGet : Json → String → Except PyErr (Option Json)
  | .obj l, k => .ok (List.lookup k l)
  | _, _ => .error .attributeError

/-- Python dict assignment `d[k] = v` (insert or overwrite, keeping
insertion order); TypeError when the receiver is not a dict. -/
def Json.setKey : Json → String → Json → Except PyErr Json
  | .obj l, k, v =>
      .ok (.obj (if l.any (fun pr => pr.1 == k) then
        l.map (fun pr => if pr.1 == k then (k, v) else pr) else l ++ [(k, v)]))
  | _, _, _ => .error .typeError

/-- Python `x == "s"` for a frame value against a string literal. -/
def Json.eqStr : Json → String → Bool
  | .str t, s => t == s
  | _, _ => false

/-- Coercion used where the source concatenates a frame value into a string
path (TypeError for non-strings, as in Python `str + value`). -/
def Json.asStr : Json → Except PyErr String
  | .str s => .ok s
  | _ => .error .typeError

/-- Numeric coercion used where the source divides a frame value by 1000.
Python booleans are integers; other non-numbers raise TypeError. -/
def Json.asNum : Json → Except PyErr ℚ
  | .num q => .ok q
  | .bool b => .ok (if b then 1 else 0)
  | _ => .error .typeError

/-- Python `a + b` on frame values: numeric addition or string
concatenation, TypeError otherwise. -/
def pyAdd : Json → Json → Except PyErr Json
  | .num a, .num b => .ok (.num (a + b))
  | .str a, .str b => .ok (.str (a ++ b))
  | _, _ => .error .typeError

/-- Python `round` (bankers rounding, ties to even) on an exact rational. -/
def pyRoundHalfEven (q : ℚ) : Int :=
  let f : Int := ⌊q⌋
  if q - f < 1/2 then f
  else if q - f > 1/2 then f + 1
  else if f % 2 = 0 then f else f + 1

/-- Python `round(x, 1)` on an exact rational. -/
def pyRound1 (q : ℚ) : ℚ := (pyRoundHalfEven (q * 10) : ℚ) / 10

/-- Decimal digit test (0-9) on a character. -/
def isDigitChar (c : Char) : Bool := 48 ≤ c.toNat && c.toNat ≤ 57

/-- Accumulate the value of a decimal digit string; fails on any
non-digit. -/
def natDigitsAux : List Char → Nat → Option Nat
  | [], acc => some acc
  | c :: cs, acc =>
      if isDigitChar c then natDigitsAux cs (acc * 10 + (c.toNat - 48)) else none

/-- Value of a non-empty decimal digit string. -/
def natDigits : List Char → Option Nat
  | [] => none
  | cs => natDigitsAux cs 0

/-- Python `int(s)` for the plain decimal forms used by the settings store,
with an optional leading minus (ValueError otherwise; exotic accepted forms
such as embedded underscores are not needed by any claim). -/
def pyInt (s : String) : Except PyErr Int :=
  match s.data with
  | '-' :: rest =>
      match natDigits rest with
      | some n => .ok (-(n : Int))
      | none => .error .valueError
  | cs =>
      match natDigits cs with
      | some n => .ok (n : Int)
      | none => .error .valueError

/-- Python `s.split(":")`: split on every colon, keeping empty pieces. -/
def pySplitColonAux : List Char → String → List String
  | [], acc => [acc]
  | c :: cs, acc =>
      if c = ':' then acc :: pySplitColonAux cs "" else pySplitColonAux cs (acc.push c)

/-- Python `s.split(":")`. -/
def pySplitColon (s : String) : List String := pySplitColonAux s.data ""

/-- Python `s.startswith(pre)`. -/
def pyStartsWithAux : List Char → List Char → Bool
  | _, [] => true
  | [], _ :: _ => false
  | c :: cs, d :: ds => c == d && pyStartsWithAux cs ds

/-- Python `s.startswith(pre)`. -/
def pyStartsWith (s pre : String) : Bool := pyStartsWithAux s.data pre.data

/-- Python list subscript with an integer index, including the negative
wrap-around, IndexError when out of range. -/
def pyIndex (l : List String) (i : Int) : Except PyErr String :=
  let n : Int := l.length
  let j := if i < 0 then i + n else i
  if 0 ≤ j ∧ j < n then .ok (l.getD j.toNat "") else .error .indexError

/-- A published dbus service: its bus name and its registered metric items
(path to current value), mirroring the item dict of the service library. -/
structure Service where
  busName : String
  items : List (String × Json)

/-- Assignment `s[path] = v` inside a service context: the service library
keeps items in a dict keyed by path, so an unregistered path raises
KeyError and registered paths are updated in place. -/
def Service.setItem (s : Service) (path : String) (v : Json) : Except PyErr Service :=
  if s.items.any (fun pr => pr.1 == path) then
    .ok { s with items := s.items.map (fun pr => if pr.1 == path then (pr.1, v) else pr) }
  else .error .keyError

/-- Run a sequence of `s[path] = value` statements.  Each statement first
evaluates its right-hand side, then assigns; the first failure stops the
sequence, keeping the updates already applied (Python mutation is not
rolled back by an except clause). -/
def runWrites : Service → List (String × Except PyErr Json) → Service × Option PyErr
  | s, [] => (s, none)
  | s, (_, .error e) :: _ => (s, some e)
  | s, (p, .ok v) :: rest =>
      match s.setItem p v with
      | .ok s2 => runWrites s2 rest
      | .error e => (s, some e)

/-- Python `with self.service as s: ...writes...` where the service may be
`None` (entering the context on `None` raises AttributeError). -/
def withService (os : Option Service) (ws : List (String × Except PyErr Json)) :
    Option Service × Option PyErr :=
  match os with
  | none => (none, some .attributeError)
  | some s =>
      let r := runWrites s ws
      (some r.1, r.2)

/-- The mutable view a channel has of its settings in localsettings:
reachability of the store plus the three per-channel values registered by
`add_settings` (combined role and VRM instance, position, phase). -/
structure LocalSettings where
  reachable : Bool
  classAndVrmInstance : String
  position : Int
  phase : Int

/-- Values of the settings rows of one channel as read back after
`add_settings` (existing values, or the registered defaults). -/
structure ChannelSettings where
  classAndVrmInstance : String
  positionVal : Int
  phaseVal : Int

/-- Environment for `start`: reachability of localsettings within the
5 second bound, the per-channel settings values read after registration,
and the process constants used for the management items. -/
structure StartEnv where
  reachable : Bool
  singleSettings : Nat → ChannelSettings
  threeSettings : ChannelSettings
  mainFile : String
  version : String
  host : String
  port : Nat

/-- `role_instance` (identical in both channel classes): split the stored
combined value on the colon; the second component must exist (IndexError)
and parse as an integer (ValueError). -/
def role_instance (value : String) : Except PyErr (String × Int) :=
  match pySplitColon value with
  | v0 :: v1 :: _ =>
      match pyInt v1 with
      | .ok i => .ok (v0, i)
      | .error e => .error e
  | _ => .error .indexError

/-- Roles accepted by the writeable role point. -/
def allowedRoles : List String := ["grid", "pvinverter", "genset", "acload"]

/-- State of one single-phase channel (class `SingleMeter`). -/
structure SingleMeter where
  meterid : Nat
  destroyed : Bool
  phaseposition : Int
  service : Option Service

/-- Fresh `SingleMeter(bus_type, meterid)`. -/
def mkSingle (mid : Nat) : SingleMeter :=
  { meterid := mid, destroyed := false, phaseposition := 1, service := none }

/-- `SingleMeter.destroy` (lines 146-151): drop the service handle and set
the monotonic destroyed flag. -/
def SingleMeter.destroy (m : SingleMeter) : SingleMeter :=
  { m with service := none, destroyed := true }

/-- Item set registered by `SingleMeter.start` (lines 103-141): management
and identity points, the writeable role, phase and (for a PV inverter)
position points, the aggregate energy and power points, and the per-phase
points under the prefix `/Ac/L<phaseposition>`.  Kept as a standalone
definition because the statement at line 101 raises before this code runs
(see the NameError modelled in `SingleMeter.start`). -/
def SingleMeter.serviceItems (env : StartEnv) (role : String) (name : Option String)
    (fw : Json) (inst : Int) (phasepos posVal : Int) : List (String × Json) :=
  [("/Mgmt/ProcessName", .str env.mainFile),
   ("/Mgmt/ProcessVersion", .str env.version),
   ("/Mgmt/Connection", .str ("WebSocket " ++ env.host ++ ":" ++ toString env.port)),
   ("/DeviceInstance", .num (inst : ℚ)),
   ("/ProductId", .num 45108),
   ("/ProductName", .str "Shelly energy meter")]
  ++ (match name with | some n => [("/CustomName", Json.str n)] | none => [])
  ++ [("/FirmwareVersion", fw),
      ("/Connected", .num 1),
      ("/RefreshTime", .num 100),
      ("/AllowedRoles", .arr [.str "grid", .str "pvinverter", .str "genset", .str "acload"]),
      ("/Role", .str role),
      ("/Phase", .num (phasepos : ℚ))]
  ++ (if role == "pvinverter" then [("/Position", Json.num (posVal : ℚ))] else [])
  ++ [("/Ac/Energy/Forward", .null), ("/Ac/Energy/Reverse", .null), ("/Ac/Power", .null)]
  ++ (let pfx := "/Ac/L" ++ toString phasepos
      [(pfx ++ "/Voltage", .null), (pfx ++ "/Current", .null), (pfx ++ "/Power", .null),
       (pfx ++ "/Energy/Forward", .null), (pfx ++ "/Energy/Reverse", .null)])

/-- `SingleMeter.start` (lines 57-143).  Required identity fields are read
under `except KeyError` (other lookup failures propagate, matching the
narrow except clause); the model check rejects everything but the ProEM
pair; the localsettings wait returns failure after the 5 second bound; the
combined role and instance value is parsed; the phase position is read into
the object; then the service-name expression at line 101 evaluates the
undefined name `meterid` (the attribute is `self.meterid`), so the call
raises NameError before any item is published.  The bus and monitor
connections (external transport) are assumed to succeed. -/
def SingleMeter.start (m : SingleMeter) (env : StartEnv) (data : Json) :
    SingleMeter × POut Bool :=
  match data.getItem "result" with
  | .error .keyError => (m, .ret false)
  | .error e => (m, .exn e)
  | .ok res =>
  match res.getItem "mac" with
  | .error .keyError => (m, .ret false)
  | .error e => (m, .exn e)
  | .ok mac =>
  match res.getItem "fw_id" with
  | .error .keyError => (m, .ret false)
  | .error e => (m, .exn e)
  | .ok _fw =>
  match res.getItem "model" with
  | .error .keyError => (m, .ret false)
  | .error e => (m, .exn e)
  | .ok model =>
  match res.getItem "app" with
  | .error .keyError => (m, .ret false)
  | .error e => (m, .exn e)
  | .ok app =>
  -- name computation (bare except): any failure degrades to no custom name
  let _name : Option String :=
    match res.getItem "name" with
    | .ok (.str s) => some (s ++ "_" ++ toString m.meterid)
    | _ => none
  if (model.eqStr "SPEM-002CEBEU50" && app.eqStr "ProEM") = false then
    (m, .ret false)
  else if env.reachable = false then
    (m, .ret false)
  else
  -- settingprefix concatenation requires the mac to be a string
  match mac.asStr with
  | .error e => (m, .exn e)
  | .ok _macS =>
  let cs := env.singleSettings m.meterid
  match role_instance cs.classAndVrmInstance with
  | .error e => (m, .exn e)
  | .ok _ri =>
  let m2 := { m with phaseposition := cs.phaseVal }
  -- line 101: str(meterid) references an undefined name
  (m2, .exn .nameError)

/-- The live-reading writes of `SingleMeter.update` (lines 160-165). -/
def SingleMeter.liveWrites (pfx : String) (data : Json) : List (String × Except PyErr Json) :=
  [(pfx ++ "/Voltage", data.getItem "voltage"),
   (pfx ++ "/Current", data.getItem "current"),
   (pfx ++ "/Power", data.getItem "act_power"),
   ("/Ac/Power", data.getItem "act_power")]

/-- Value written for an energy field: `round(data[field]/1000, 1)`. -/
def energyVal (data : Json) (field : String) : Except PyErr Json :=
  match data.getItem field with
  | .error e => .error e
  | .ok v =>
      match v.asNum with
      | .error e => .error e
      | .ok q => .ok (.num (pyRound1 (q / 1000)))

/-- The cumulative-energy writes of `SingleMeter.update` (lines 170-174). -/
def SingleMeter.emdataWrites (pfx : String) (data : Json) : List (String × Except PyErr Json) :=
  [("/Ac/Energy/Forward", energyVal data "total_act_energy"),
   ("/Ac/Energy/Reverse", energyVal data "total_act_ret_energy"),
   (pfx ++ "/Energy/Forward", energyVal data "total_act_energy"),
   (pfx ++ "/Energy/Reverse", energyVal data "total_act_ret_energy")]

/-- First half of `SingleMeter.update` (lines 156-178): the helpertag
dispatch.  The whole region sits inside a bare try/except, and each branch
additionally wraps its writes in a bare try/except, so every failure here
is swallowed and only the successfully applied writes remain. -/
def SingleMeter.updateBlock1 (m : SingleMeter) (data : Json) : SingleMeter :=
  let pfx := "/Ac/L" ++ toString m.phaseposition
  match data.getItem "helpertag" with
  | .error _ => m
  | .ok (.str t) =>
      if pyStartsWith t "em:" then
        { m with service := (withService m.service (SingleMeter.liveWrites pfx data)).1 }
      else if pyStartsWith t "emdata:" then
        { m with service := (withService m.service (SingleMeter.emdataWrites pfx data)).1 }
      else m
  | .ok _ => m  -- startswith on a non-string raises; swallowed by the bare except

/-- Python equality of a value against the NotifyStatus tag, applied to the result of the method-field get. -/
def optIsNotify (o : Option Json) : Bool :=
  match o with
  | some j => j.eqStr "NotifyStatus"
  | none => false

/-- The params subscript chain guarded only by `except KeyError` (lines 182-185,
200-203): a missing key skips the block, any other failure propagates. -/
def tryParams (data : Json) (k : String) : Except PyErr (Option Json) :=
  match data.getItem "params" with
  | .error .keyError => .ok none
  | .error e => .error e
  | .ok ps =>
      match ps.getItem k with
      | .error .keyError => .ok none
      | .error e => .error e
      | .ok d => .ok (some d)

/-- Sum `d["a_act_power"] + d["b_act_power"] + d["c_act_power"]`. -/
def sumAbc (d : Json) : Except PyErr Json :=
  match d.getItem "a_act_power" with
  | .error e => .error e
  | .ok a =>
  match d.getItem "b_act_power" with
  | .error e => .error e
  | .ok b =>
  match pyAdd a b with
  | .error e => .error e
  | .ok ab =>
  match d.getItem "c_act_power" with
  | .error e => .error e
  | .ok c => pyAdd ab c

/-- The unguarded NotifyStatus live writes of `SingleMeter.update`
(lines 187-198): hard-coded L1..L3 paths. -/
def SingleMeter.notifyEmWrites (d : Json) : List (String × Except PyErr Json) :=
  [("/Ac/L1/Voltage", d.getItem "a_voltage"),
   ("/Ac/L2/Voltage", d.getItem "b_voltage"),
   ("/Ac/L3/Voltage", d.getItem "c_voltage"),
   ("/Ac/L1/Current", d.getItem "a_current"),
   ("/Ac/L2/Current", d.getItem "b_current"),
   ("/Ac/L3/Current", d.getItem "c_current"),
   ("/Ac/L1/Power", d.getItem "a_act_power"),
   ("/Ac/L2/Power", d.getItem "b_act_power"),
   ("/Ac/L3/Power", d.getItem "c_act_power"),
   ("/Ac/Power", sumAbc d)]

/-- The unguarded NotifyStatus energy writes of `SingleMeter.update`
(lines 205-213). -/
def SingleMeter.notifyEmdataWrites (d : Json) : List (String × Except PyErr Json) :=
  [("/Ac/Energy/Forward", energyVal d "total_act"),
   ("/Ac/Energy/Reverse", energyVal d "total_act_ret"),
   ("/Ac/L1/Energy/Forward", energyVal d "a_total_act_energy"),
   ("/Ac/L1/Energy/Reverse", energyVal d "a_total_act_ret_energy"),
   ("/Ac/L2/Energy/Forward", energyVal d "b_total_act_energy"),
   ("/Ac/L2/Energy/Reverse", energyVal d "b_total_act_ret_energy"),
   ("/Ac/L3/Energy/Forward", energyVal d "c_total_act_energy"),
   ("/Ac/L3/Energy/Reverse", energyVal d "c_total_act_ret_energy")]

/-- Second half of `SingleMeter.update` (lines 181-213).  No try/except
surrounds this region: only the two `params` subscripts are guarded, and
only against KeyError, so a present but malformed block raises out of
`update`, keeping any writes already applied. -/
def SingleMeter.updateBlock2 (m : SingleMeter) (data : Json) : SingleMeter × POut Unit :=
  match m.service with
  | none => (m, .ret ())  -- `self.service and ...` short-circuits on a falsy service
  | some s =>
  match data.dictGet "method" with
  | .error e => (m, .exn e)
  | .ok mv =>
  if optIsNotify mv = false then (m, .ret ())
  else
  match tryParams data "em:0" with
  | .error e => (m, .exn e)
  | .ok od =>
  let r1 :=
    match od with
    | none => (s, (none : Option PyErr))
    | some d => runWrites s (SingleMeter.notifyEmWrites d)
  match r1.2 with
  | some e => ({ m with service := some r1.1 }, .exn e)
  | none =>
  match tryParams data "emdata:0" with
  | .error e => ({ m with service := some r1.1 }, .exn e)
  | .ok od2 =>
  let r2 :=
    match od2 with
    | none => (r1.1, (none : Option PyErr))
    | some d => runWrites r1.1 (SingleMeter.notifyEmdataWrites d)
  match r2.2 with
  | some e => ({ m with service := some r2.1 }, .exn e)
  | none => ({ m with service := some r2.1 }, .ret ())

/-- `SingleMeter.update` (lines 153-213): the guarded helpertag dispatch
followed by the unguarded NotifyStatus region. -/
def SingleMeter.update (m : SingleMeter) (data : Json) : SingleMeter × POut Unit :=
  SingleMeter.updateBlock2 (SingleMeter.updateBlock1 m data) data

/-- `SingleMeter.role_changed` (lines 224-237): reject roles outside the
allowed set, reject when localsettings is unknown, otherwise write back the
new role with the existing instance and self-destruct. -/
def SingleMeter.role_changed (m : SingleMeter) (st : LocalSettings) (val : String) :
    (SingleMeter × LocalSettings) × POut Bool :=
  if allowedRoles.contains val = false then ((m, st), .ret false)
  else if st.reachable = false then ((m, st), .ret false)
  else
    match role_instance st.classAndVrmInstance with
    | .error e => ((m, st), .exn e)
    | .ok ri =>
        ((m.destroy, { st with classAndVrmInstance := val ++ ":" ++ toString ri.2 }), .ret true)

/-- `SingleMeter.position_changed` (lines 239-248). -/
def SingleMeter.position_changed (m : SingleMeter) (st : LocalSettings) (val : Int) :
    (SingleMeter × LocalSettings) × POut Bool :=
  if ¬ (0 ≤ val ∧ val ≤ 2) then ((m, st), .ret false)
  else if st.reachable = false then ((m, st), .ret false)
  else ((m, { st with position := val }), .ret true)

/-- `SingleMeter.phase_changed` (lines 251-262): persist and update the
in-memory phase used by subsequent updates. -/
def SingleMeter.phase_changed (m : SingleMeter) (st : LocalSettings) (val : Int) :
    (SingleMeter × LocalSettings) × POut Bool :=
  if ¬ (1 ≤ val ∧ val ≤ 3) then ((m, st), .ret false)
  else if st.reachable = false then ((m, st), .ret false)
  else (({ m with phaseposition := val }, { st with phase := val }), .ret true)

/-- State of the three-phase channel (class `ThreePhaseMeter`). -/
structure ThreePhaseMeter where
  destroyed : Bool
  phase1position : Int
  service : Option Service

/-- Fresh `ThreePhaseMeter(bus_type)`. -/
def mkThree : ThreePhaseMeter :=
  { destroyed := false, phase1position := 1, service := none }

/-- `ThreePhaseMeter.destroy` (lines 378-383). -/
def ThreePhaseMeter.destroy (m : ThreePhaseMeter) : ThreePhaseMeter :=
  { m with service := none, destroyed := true }

/-- The cyclic phase table of `ThreePhaseMeter.update` (line 389). -/
def phaseorder : List String := ["", "a", "b", "c", "a", "b"]

/-- Physical phase letter presented on a logical line: `phaseorder[i]`. -/
def phaseLetter (i : Int) : Except PyErr String := pyIndex phaseorder i

/-- The remapping table as used by the update paths: the physical letters
presented as logical lines 1, 2, 3 are `phaseorder` at positions `p`,
`p + 1`, `p + 2`. -/
def remap (p : Int) : Except PyErr (List String) :=
  match phaseLetter p with
  | .error e => .error e
  | .ok l1 =>
  match phaseLetter (p + 1) with
  | .error e => .error e
  | .ok l2 =>
  match phaseLetter (p + 2) with
  | .error e => .error e
  | .ok l3 => .ok [l1, l2, l3]

/-- Field key `phaseorder[i] + suffix` used to pick a physical field. -/
def keyedField (i : Int) (tail : String) (data : Json) : Except PyErr Json :=
  match phaseLetter i with
  | .error e => .error e
  | .ok letter => data.getItem (letter ++ tail)

/-- Energy value `round(data[phaseorder[i] + tail]/1000, 1)`. -/
def keyedEnergy (i : Int) (tail : String) (data : Json) : Except PyErr Json :=
  match phaseLetter i with
  | .error e => .error e
  | .ok letter => energyVal data (letter ++ tail)

/-- The rotated live-reading writes of `ThreePhaseMeter.update`
(lines 396-407): voltages, currents and powers are remapped through the
phase table, while the aggregate power sums the physical a, b, c fields
directly. -/
def ThreePhaseMeter.liveWrites (p : Int) (data : Json) : List (String × Except PyErr Json) :=
  [("/Ac/L1/Voltage", keyedField p "_voltage" data),
   ("/Ac/L2/Voltage", keyedField (p + 1) "_voltage" data),
   ("/Ac/L3/Voltage", keyedField (p + 2) "_voltage" data),
   ("/Ac/L1/Current", keyedField p "_current" data),
   ("/Ac/L2/Current", keyedField (p + 1) "_current" data),
   ("/Ac/L3/Current", keyedField (p + 2) "_current" data),
   ("/Ac/L1/Power", keyedField p "_act_power" data),
   ("/Ac/L2/Power", keyedField (p + 1) "_act_power" data),
   ("/Ac/L3/Power", keyedField (p + 2) "_act_power" data),
   ("/Ac/Power", sumAbc data)]

/-- The rotated cumulative-energy writes of `ThreePhaseMeter.update`
(lines 412-420). -/
def ThreePhaseMeter.emdataWrites (p : Int) (data : Json) : List (String × Except PyErr Json) :=
  [("/Ac/Energy/Forward", energyVal data "total_act"),
   ("/Ac/Energy/Reverse", energyVal data "total_act_ret"),
   ("/Ac/L1/Energy/Forward", keyedEnergy p "_total_act_energy" data),
   ("/Ac/L1/Energy/Reverse", keyedEnergy p "_total_act_ret_energy" data),
   ("/Ac/L2/Energy/Forward", keyedEnergy (p + 1) "_total_act_energy" data),
   ("/Ac/L2/Energy/Reverse", keyedEnergy (p + 1) "_total_act_ret_energy" data),
   ("/Ac/L3/Energy/Forward", keyedEnergy (p + 2) "_total_act_energy" data),
   ("/Ac/L3/Energy/Reverse", keyedEnergy (p + 2) "_total_act_ret_energy" data)]

/-- Body of `ThreePhaseMeter.update` before the enclosing try/except: the
helpertag dispatch with per-branch guarded writes. -/
def ThreePhaseMeter.updateBody (m : ThreePhaseMeter) (data : Json) : ThreePhaseMeter :=
  match data.getItem "helpertag" with
  | .error _ => m
  | .ok (.str t) =>
      if pyStartsWith t "em:" then
        { m with service := (withService m.service (ThreePhaseMeter.liveWrites m.phase1position data)).1 }
      else if pyStartsWith t "emdata:" then
        { m with service := (withService m.service (ThreePhaseMeter.emdataWrites m.phase1position data)).1 }
      else m
  | .ok _ => m  -- startswith on a non-string raises; swallowed

/-- `ThreePhaseMeter.update` (lines 385-424): the entire body sits inside
one bare try/except, so this method never raises. -/
def ThreePhaseMeter.update (m : ThreePhaseMeter) (data : Json) : ThreePhaseMeter × POut Unit :=
  (ThreePhaseMeter.updateBody m data, .ret ())

/-- Item set registered by `ThreePhaseMeter.start` (lines 338-374). -/
def ThreePhaseMeter.serviceItems (env : StartEnv) (role : String) (name : Option Json)
    (fw : Json) (inst : Int) (phase1 posVal : Int) : List (String × Json) :=
  [("/Mgmt/ProcessName", .str env.mainFile),
   ("/Mgmt/ProcessVersion", .str env.version),
   ("/Mgmt/Connection", .str ("WebSocket " ++ env.host ++ ":" ++ toString env.port)),
   ("/DeviceInstance", .num (inst : ℚ)),
   ("/ProductId", .num 45108),
   ("/ProductName", .str "Shelly energy meter")]
  ++ (match name with | some n => [("/CustomName", n)] | none => [])
  ++ [("/FirmwareVersion", fw),
      ("/Connected", .num 1),
      ("/RefreshTime", .num 100),
      ("/AllowedRoles", .arr [.str "grid", .str "pvinverter", .str "genset", .str "acload"]),
      ("/Role", .str role),
      ("/Phase", .num (phase1 : ℚ))]
  ++ (if role == "pvinverter" then [("/Position", Json.num (posVal : ℚ))] else [])
  ++ [("/Ac/Energy/Forward", .null), ("/Ac/Energy/Reverse", .null), ("/Ac/Power", .null)]
  ++ [("/Ac/L1/Voltage", .null), ("/Ac/L1/Current", .null), ("/Ac/L1/Power", .null),
      ("/Ac/L1/Energy/Forward", .null), ("/Ac/L1/Energy/Reverse", .null),
      ("/Ac/L2/Voltage", .null), ("/Ac/L2/Current", .null), ("/Ac/L2/Power", .null),
      ("/Ac/L2/Energy/Forward", .null), ("/Ac/L2/Energy/Reverse", .null),
      ("/Ac/L3/Voltage", .null), ("/Ac/L3/Current", .null), ("/Ac/L3/Power", .null),
      ("/Ac/L3/Energy/Forward", .null), ("/Ac/L3/Energy/Reverse", .null)]

/-- `ThreePhaseMeter.start` (lines 289-376): same shape as the single-phase
start but for the Pro3EM identity, and with a correctly-formed service-name
expression at line 336, so on success the full item set is published and
the method returns True. -/
def ThreePhaseMeter.start (m : ThreePhaseMeter) (env : StartEnv) (data : Json) :
    ThreePhaseMeter × POut Bool :=
  match data.getItem "result" with
  | .error .keyError => (m, .ret false)
  | .error e => (m, .exn e)
  | .ok res =>
  match res.getItem "mac" with
  | .error .keyError => (m, .ret false)
  | .error e => (m, .exn e)
  | .ok mac =>
  match res.getItem "fw_id" with
  | .error .keyError => (m, .ret false)
  | .error e => (m, .exn e)
  | .ok fw =>
  match res.getItem "model" with
  | .error .keyError => (m, .ret false)
  | .error e => (m, .exn e)
  | .ok model =>
  match res.getItem "app" with
  | .error .keyError => (m, .ret false)
  | .error e => (m, .exn e)
  | .ok app =>
  let name : Option Json := (res.getItem "name").toOption
  if (model.eqStr "SPEM-003CEBEU" && app.eqStr "Pro3EM") = false then
    (m, .ret false)
  else if env.reachable = false then
    (m, .ret false)
  else
  match mac.asStr with
  | .error e => (m, .exn e)
  | .ok macS =>
  let cs := env.threeSettings
  match role_instance cs.classAndVrmInstance with
  | .error e => (m, .exn e)
  | .ok ri =>
  let m2 := { m with phase1position := cs.phaseVal }
  let svc : Service :=
    { busName := "com.victronenergy." ++ ri.1 ++ ".shelly_" ++ macS,
      items := ThreePhaseMeter.serviceItems env ri.1 name fw ri.2 cs.phaseVal cs.positionVal }
  ({ m2 with service := some svc }, .ret true)

/-- `ThreePhaseMeter.role_changed` (lines 436-449). -/
def ThreePhaseMeter.role_changed (m : ThreePhaseMeter) (st : LocalSettings) (val : String) :
    (ThreePhaseMeter × LocalSettings) × POut Bool :=
  if allowedRoles.contains val = false then ((m, st), .ret false)
  else if st.reachable = false then ((m, st), .ret false)
  else
    match role_instance st.classAndVrmInstance with
    | .error e => ((m, st), .exn e)
    | .ok ri =>
        ((m.destroy, { st with classAndVrmInstance := val ++ ":" ++ toString ri.2 }), .ret true)

/-- `ThreePhaseMeter.position_changed` (lines 451-460). -/
def ThreePhaseMeter.position_changed (m : ThreePhaseMeter) (st : LocalSettings) (val : Int) :
    (ThreePhaseMeter × LocalSettings) × POut Bool :=
  if ¬ (0 ≤ val ∧ val ≤ 2) then ((m, st), .ret false)
  else if st.reachable = false then ((m, st), .ret false)
  else ((m, { st with position := val }), .ret true)

/-- `ThreePhaseMeter.phase_changed` (lines 462-473). -/
def ThreePhaseMeter.phase_changed (m : ThreePhaseMeter) (st : LocalSettings) (val : Int) :
    (ThreePhaseMeter × LocalSettings) × POut Bool :=
  if ¬ (1 ≤ val ∧ val ≤ 3) then ((m, st), .ret false)
  else if st.reachable = false then ((m, st), .ret false)
  else (({ m with phase1position := val }, { st with phase := val }), .ret true)

/-- A channel owned by the device group: one of the two variants. -/
inductive LocalMeter where
  | single (m : SingleMeter)
  | three (m : ThreePhaseMeter)

/-- The destroyed flag of a channel. -/
def LocalMeter.destroyedFlag : LocalMeter → Bool
  | .single m => m.destroyed
  | .three m => m.destroyed

/-- The published service handle of a channel (none once destroyed or when
never started). -/
def LocalMeter.serviceOf : LocalMeter → Option Service
  | .single m => m.service
  | .three m => m.service

/-- Dispatch `destroy` to the channel variant. -/
def LocalMeter.destroyM : LocalMeter → LocalMeter
  | .single m => .single m.destroy
  | .three m => .three m.destroy

/-- Dispatch `update` to the channel variant. -/
def LocalMeter.updateM : LocalMeter → Json → LocalMeter × POut Unit
  | .single m, d =>
      let r := SingleMeter.update m d
      (.single r.1, r.2)
  | .three m, d =>
      let r := ThreePhaseMeter.update m d
      (.three r.1, r.2)

/-- Python dict assignment for the integer-keyed channel dicts: overwrite
in place or append in insertion order. -/
def dictSet {α : Type} (l : List (Nat × α)) (k : Nat) (v : α) : List (Nat × α) :=
  if l.any (fun pr => pr.1 == k) then
    l.map (fun pr => if pr.1 == k then (k, v) else pr)
  else l ++ [(k, v)]

/-- State of the device group (class `PhysicalMeter`): the channel dict and
the dict from channel id to its set of telemetry block keys. -/
structure PhysicalMeter where
  destroyed : Bool
  localmeters : List (Nat × LocalMeter)
  localmeterskeys : List (Nat × List String)

/-- Fresh `PhysicalMeter(bus_type)`. -/
def emptyGroup : PhysicalMeter :=
  { destroyed := false, localmeters := [], localmeterskeys := [] }

/-- Runtime value bound by `for meter in self.localmeters`: iteration over
a Python dict yields its KEYS, so the loop variable is an integer, not a
channel object. -/
inductive PyVal where
  | intKey (n : Nat)
  | meter (lm : LocalMeter)

/-- Python attribute lookup `x.destroyed`, dispatched on the runtime type
of `x`: channel objects have the flag, integers raise AttributeError. -/
def PyVal.attrDestroyed : PyVal → Except PyErr Bool
  | .meter lm => .ok lm.destroyedFlag
  | .intKey _ => .error .attributeError

/-- Python method call `x.destroy()` on the loop variable, likewise
dispatched on the runtime type. -/
def PyVal.callDestroy : PyVal → Except PyErr LocalMeter
  | .meter lm => .ok lm.destroyM
  | .intKey _ => .error .attributeError

/-- Loop body of `PhysicalMeter.destroy` (lines 655-660), iterating the
values produced by `for meter in self.localmeters` (the dict keys): on the
first element `meter.destroyed` raises AttributeError; only with an empty
dict does the loop finish and set the group flag.  No try/except protects
this method. -/
def PhysicalMeter.destroyLoop (g : PhysicalMeter) : List PyVal → PhysicalMeter × POut Unit
  | [] => ({ g with destroyed := true }, .ret ())
  | v :: rest =>
      match v.attrDestroyed with
      | .error e => (g, .exn e)
      | .ok d =>
          if d = false then
            match v.callDestroy with
            | .error e => (g, .exn e)
            | .ok _ => PhysicalMeter.destroyLoop g rest
          else PhysicalMeter.destroyLoop g rest

/-- `PhysicalMeter.destroy` (lines 655-660). -/
def PhysicalMeter.destroy (g : PhysicalMeter) : PhysicalMeter × POut Unit :=
  PhysicalMeter.destroyLoop g (g.localmeters.map (fun pr => PyVal.intKey pr.1))

/-- The destroyed-channel sweep at the top of `PhysicalMeter.update`
(lines 665-667): again iterates the dict keys, so `meter.destroyed` raises
AttributeError on the first element; this region is OUTSIDE the
try/except of the method. -/
def PhysicalMeter.sweep (g : PhysicalMeter) : List PyVal → PhysicalMeter × POut Unit
  | [] => (g, .ret ())
  | v :: rest =>
      match v.attrDestroyed with
      | .error e => (g, .exn e)
      | .ok true =>
          match PhysicalMeter.destroy g with
          | (g2, .exn e) => (g2, .exn e)
          | (g2, .ret ()) => PhysicalMeter.sweep g2 rest
      | .ok false => PhysicalMeter.sweep g rest

/-- Inner per-key dispatch of `PhysicalMeter.update` (lines 679-688): for
each block key of one channel, `d[key]` is guarded only against KeyError;
the helpertag is stamped into the block and the block forwarded to the
channel.  Any other failure aborts the remaining dispatch (it is swallowed
by the outer bare except of the method, keeping the state reached so far). -/
def PhysicalMeter.dispatchKeys (g : PhysicalMeter) (k : Nat) (d : Json) :
    List String → PhysicalMeter × Option PyErr
  | [] => (g, none)
  | key :: rest =>
      match d.getItem key with
      | .error .keyError => PhysicalMeter.dispatchKeys g k d rest
      | .error e => (g, some e)
      | .ok emdata =>
          match emdata.setKey "helpertag" (.str key) with
          | .error e => (g, some e)
          | .ok tagged =>
              match List.lookup k g.localmeters with
              | none => (g, some .keyError)
              | some lm =>
                  match lm.updateM tagged with
                  | (lm2, .exn e) =>
                      ({ g with localmeters := dictSet g.localmeters k lm2 }, some e)
                  | (lm2, .ret ()) =>
                      PhysicalMeter.dispatchKeys
                        { g with localmeters := dictSet g.localmeters k lm2 } k d rest

/-- Outer per-channel dispatch of `PhysicalMeter.update` (lines 679-688),
iterating the channel ids in insertion order; `self.localmeterskeys[meter]`
missing would raise KeyError into the outer bare except. -/
def PhysicalMeter.dispatchMeters (g : PhysicalMeter) (d : Json) :
    List Nat → PhysicalMeter × Option PyErr
  | [] => (g, none)
  | k :: rest =>
      match List.lookup k g.localmeterskeys with
      | none => (g, some .keyError)
      | some keyset =>
          match PhysicalMeter.dispatchKeys g k d keyset with
          | (g2, some e) => (g2, some e)
          | (g2, none) => PhysicalMeter.dispatchMeters g2 d rest

/-- The try/except-guarded region of `PhysicalMeter.update`
(lines 670-690): everything raised inside, including failures propagated
out of a channel update, is swallowed by the bare except, keeping the
mutations already applied. -/
def PhysicalMeter.tryDispatch (g : PhysicalMeter) (data : Json) : PhysicalMeter :=
  match data.dictGet "method" with
  | .error _ => g
  | .ok mv =>
      if optIsNotify mv = false then g
      else
        match data.getItem "params" with
        | .error _ => g
        | .ok d => (PhysicalMeter.dispatchMeters g d (g.localmeters.map (fun pr => pr.1))).1

/-- `PhysicalMeter.update` (lines 662-690): the destroyed-channel sweep
(unprotected) followed by the guarded NotifyStatus dispatch. -/
def PhysicalMeter.update (g : PhysicalMeter) (data : Json) : PhysicalMeter × POut Unit :=
  match PhysicalMeter.sweep g (g.localmeters.map (fun pr => PyVal.intKey pr.1)) with
  | (g2, .exn e) => (g2, .exn e)
  | (g2, .ret ()) => (PhysicalMeter.tryDispatch g2 data, .ret ())

/-- One pass of the classification loop over single-phase channel ids
(lines 499-503 and 510-514): create the channel, record its telemetry block
keys, run its start; a False start aborts `PhysicalMeter.start` with False,
an exception propagates, and in both cases the channel object already sits
in the dict (Python mutates the stored object in place). -/
def PhysicalMeter.runSingles (g : PhysicalMeter) (env : StartEnv) (data : Json) :
    List Nat → PhysicalMeter × Option (POut (Option Bool))
  | [] => (g, none)
  | k :: rest =>
      let m0 := mkSingle k
      let g1 : PhysicalMeter :=
        { g with
          localmeters := dictSet g.localmeters k (.single m0),
          localmeterskeys := dictSet g.localmeterskeys k
            ["em1:" ++ toString k, "em1data:" ++ toString k] }
      match SingleMeter.start m0 env data with
      | (m2, .exn e) =>
          ({ g1 with localmeters := dictSet g1.localmeters k (.single m2) }, some (.exn e))
      | (m2, .ret b) =>
          let g2 := { g1 with localmeters := dictSet g1.localmeters k (.single m2) }
          if b then PhysicalMeter.runSingles g2 env data rest
          else (g2, some (.ret (some false)))

/-- `PhysicalMeter.start` (lines 483-653).  Only `model` and `app` are
required identity fields here; the two-channel ProEM device yields two
single-phase channels keyed `em1:i`/`em1data:i`; the three-line Pro3EM
device requires a `profile` field (its absence returns False), a
`monophase` profile yields three single-phase channels, any other profile
one three-phase channel keyed `em:0`/`emdata:0`.  Everything after the
classification chain is commented out in the source, so a run that
completes the chain falls off the end of the function and returns None
(modelled as `.ret none`). -/
def PhysicalMeter.start (g : PhysicalMeter) (env : StartEnv) (data : Json) :
    PhysicalMeter × POut (Option Bool) :=
  match data.getItem "result" with
  | .error .keyError => (g, .ret (some false))
  | .error e => (g, .exn e)
  | .ok res =>
  match res.getItem "model" with
  | .error .keyError => (g, .ret (some false))
  | .error e => (g, .exn e)
  | .ok model =>
  match res.getItem "app" with
  | .error .keyError => (g, .ret (some false))
  | .error e => (g, .exn e)
  | .ok app =>
  if (model.eqStr "SPEM-002CEBEU50" && app.eqStr "ProEM") = true then
    match PhysicalMeter.runSingles g env data [0, 1] with
    | (g2, some out) => (g2, out)
    | (g2, none) => (g2, .ret none)
  else if (model.eqStr "SPEM-003CEBEU" && app.eqStr "Pro3EM") = true then
    match res.getItem "profile" with
    | .error .keyError => (g, .ret (some false))
    | .error e => (g, .exn e)
    | .ok profile =>
    if profile.eqStr "monophase" = true then
      match PhysicalMeter.runSingles g env data [0, 1, 2] with
      | (g2, some out) => (g2, out)
      | (g2, none) => (g2, .ret none)
    else
      let m0 := mkThree
      let g1 : PhysicalMeter :=
        { g with
          localmeters := dictSet g.localmeters 0 (.three m0),
          localmeterskeys := dictSet g.localmeterskeys 0 ["em:0", "emdata:0"] }
      match ThreePhaseMeter.start m0 env data with
      | (m2, .exn e) =>
          ({ g1 with localmeters := dictSet g1.localmeters 0 (.three m2) }, .exn e)
      | (m2, .ret b) =>
          let g2 := { g1 with localmeters := dictSet g1.localmeters 0 (.three m2) }
          if b then (g2, .ret none) else (g2, .ret (some false))
  else (g, .ret (some false))

/-! ## Concrete inputs used by the claim theorems -/

/-- Default settings row contents registered by `add_settings`. -/
def defaultSettings : ChannelSettings :=
  { classAndVrmInstance := "grid:40", positionVal := 0, phaseVal := 1 }

/-- Environment with localsettings reachable. -/
def reachableEnv : StartEnv :=
  { reachable := true, singleSettings := fun _ => defaultSettings,
    threeSettings := defaultSettings, mainFile := "meter.py", version := "0.1",
    host := "host", port := 80 }

/-- Environment where localsettings never shows up within the bound. -/
def unreachableEnv : StartEnv :=
  { reachable := false, singleSettings := fun _ => defaultSettings,
    threeSettings := defaultSettings, mainFile := "meter.py", version := "0.1",
    host := "host", port := 80 }

/-- Handshake result frame of the two-channel ProEM device. -/
def proemHandshake (mac fw : String) : Json :=
  .obj [("result", .obj [("mac", .str mac), ("fw_id", .str fw),
    ("model", .str "SPEM-002CEBEU50"), ("app", .str "ProEM")])]

/-- Handshake result frame of the three-line Pro3EM device, with an
optional profile field. -/
def pro3emHandshake (mac fw : String) (profile : Option Json) : Json :=
  .obj [("result", .obj
    ([("mac", .str mac), ("fw_id", .str fw),
      ("model", .str "SPEM-003CEBEU"), ("app", .str "Pro3EM")] ++
     (match profile with | some p => [("profile", p)] | none => [])))]

/-- A device group owning one single-phase channel whose destroyed flag is
already true (the situation C1 quantifies over). -/
def c1Group : PhysicalMeter :=
  { destroyed := false,
    localmeters := [(0, .single
      { meterid := 0, destroyed := true, phaseposition := 1, service := none })],
    localmeterskeys := [(0, ["em1:0", "em1data:0"])] }

/-! ## C1 -/

/-- C1: the claim states that `PhysicalMeter.update` on a group with a
destroyed channel completes without raising and destroys the whole group.
The code instead iterates the channel DICT in the destroyed-sweep, so the
loop variable is the integer key and `meter.destroyed` raises
AttributeError before any flag is read: the call raises, the group flag
stays false and no channel destroy is invoked.  Evaluated here at a group
holding one destroyed channel and an arbitrary frame. -/
theorem physicalMeter_update_sweep_attribute_error :
    PhysicalMeter.update c1Group (.obj []) = (c1Group, .exn .attributeError)
    ∧ c1Group.destroyed = false
    ∧ (PhysicalMeter.update c1Group (.obj [])).1.localmeters
        = [(0, .single { meterid := 0, destroyed := true, phaseposition := 1, service := none })] :=
  ⟨rfl, rfl, rfl⟩

/-! ## C9 -/

/-- C9: the claim states that for a complete ProEM handshake with the
store reachable, `PhysicalMeter.start` creates two bound channels and
reports its outcome solely as a boolean.  In the code the
`SingleMeter.start` of the first channel reaches the service-name expression at line 101, which
reads the undefined name `meterid` (the attribute is `self.meterid`) and
raises NameError out of `PhysicalMeter.start`; only the first channel
object was created. -/
theorem physicalMeter_start_proem_name_error :
    (PhysicalMeter.start emptyGroup reachableEnv (proemHandshake "08f9e0aabbcc" "1.0.0")).2
      = .exn .nameError
    ∧ ((PhysicalMeter.start emptyGroup reachableEnv
          (proemHandshake "08f9e0aabbcc" "1.0.0")).1).localmeters.length = 1 :=
  ⟨by rfl, by rfl⟩

/-! ## C5 -/

/-- C5: for every phase-1 position p in 1..3, indexing positions p, p+1,
p+2 into the cyclic table yields a valid permutation of the physical
letters a, b, c; the three cases are listed exhaustively, and the mapping
is a pure function of p (so equal positions always yield the equal
permutation shown). -/
theorem phase_remap_permutation :
    remap 1 = .ok ["a", "b", "c"]
    ∧ remap 2 = .ok ["b", "c", "a"]
    ∧ remap 3 = .ok ["c", "a", "b"]
    ∧ ["a", "b", "c"].Perm ["a", "b", "c"]
    ∧ ["b", "c", "a"].Perm ["a", "b", "c"]
    ∧ ["c", "a", "b"].Perm ["a", "b", "c"] :=
  ⟨rfl, rfl, rfl, by decide, by decide, by decide⟩

/-! ## C3 -/

/-- A single-phase channel that carries the item set `SingleMeter.start`
registers for phase 1 (the NameError at line 101 prevents `start` itself
from ever completing, so the registered set is taken directly from the
item-registration code of lines 103-141). -/
def c3Meter : SingleMeter :=
  { meterid := 0, destroyed := false, phaseposition := 1,
    service := some
      { busName := "com.victronenergy.grid.shelly_aabb_0",
        items := SingleMeter.serviceItems reachableEnv "grid" none (.str "1.0") 40 1 0 } }

/-- C3, counterexample: the claim states that a channel update never
raises and a missing field only drops that one update.  In
`SingleMeter.update` the NotifyStatus region (lines 181-213) guards only
the `params` subscripts and only against KeyError, so a frame with method
NotifyStatus and an empty `em:0` block raises KeyError out of `update` at
the `a_voltage` lookup. -/
theorem singleMeter_update_notify_keyerror :
    (SingleMeter.update c3Meter
      (.obj [("method", .str "NotifyStatus"), ("params", .obj [("em:0", .obj [])])])).2
      = .exn .keyError := by rfl

/-- Block 1 of `SingleMeter.update` never turns an absent service into a
present one. -/
theorem updateBlock1_service_none (m : SingleMeter) (d : Json) (h : m.service = none) :
    (SingleMeter.updateBlock1 m d).service = none := by
  unfold SingleMeter.updateBlock1
  split
  · exact h
  · split
    · simp [withService, h]
    · split
      · simp [withService, h]
      · exact h
  · exact h

/-- C3, amended: `ThreePhaseMeter.update` never raises (its whole body is
inside one bare try/except); `SingleMeter.update` never raises once the
channel has no service (in particular after destroy) and never raises on
any dict frame not carrying method NotifyStatus — the helpertag paths
swallow every failure per update.  The exception forced by the
counterexample remains: a live service together with a present but
malformed NotifyStatus params block raises out of `SingleMeter.update`. -/
theorem update_no_raise_amended :
    (∀ (tm : ThreePhaseMeter) (d : Json), (ThreePhaseMeter.update tm d).2 = .ret ())
    ∧ (∀ (m : SingleMeter) (d : Json), m.service = none →
        (SingleMeter.update m d).2 = .ret ())
    ∧ (∀ (m : SingleMeter) (l : List (String × Json)),
        optIsNotify (List.lookup "method" l) = false →
        (SingleMeter.update m (.obj l)).2 = .ret ()) := by
  refine ⟨fun tm d => rfl, ?_, ?_⟩
  · intro m d h
    simp only [SingleMeter.update, SingleMeter.updateBlock2,
      updateBlock1_service_none m d h]
  · intro m l h
    simp only [SingleMeter.update, SingleMeter.updateBlock2]
    cases hs : (SingleMeter.updateBlock1 m (.obj l)).service with
    | none => rfl
    | some s => simp [Json.dictGet, h]

/-- C3, witness for the amended theorem: a three-phase update on an empty
frame, a destroyed-shape single-phase update, and a single-phase update on
a frame without NotifyStatus all return normally. -/
theorem update_no_raise_amended_witness :
    (ThreePhaseMeter.update mkThree (.obj [])).2 = .ret ()
    ∧ (SingleMeter.update (mkSingle 0) (.obj [])).2 = .ret ()
    ∧ (SingleMeter.update c3Meter (.obj [("x", .null)])).2 = .ret () :=
  ⟨update_no_raise_amended.1 mkThree (.obj []),
   update_no_raise_amended.2.1 (mkSingle 0) (.obj []) rfl,
   update_no_raise_amended.2.2 c3Meter [("x", .null)] rfl⟩

/-! ## C6 -/

/-- C6: the role-change callback of either channel variant rejects any
value outside the allowed role set and leaves the store untouched; for an
allowed value with the store reachable it writes back the new role paired
with the existing instance and self-destructs, returning accepted with the
destroyed flag set. -/
theorem role_changed_contract :
    ∀ (m : SingleMeter) (tm : ThreePhaseMeter) (st : LocalSettings) (val : String)
      (r0 : String) (inst : Int),
      role_instance st.classAndVrmInstance = .ok (r0, inst) →
      (allowedRoles.contains val = false →
        SingleMeter.role_changed m st val = ((m, st), .ret false)
        ∧ ThreePhaseMeter.role_changed tm st val = ((tm, st), .ret false))
      ∧ (allowedRoles.contains val = true → st.reachable = true →
        SingleMeter.role_changed m st val =
          ((m.destroy, { st with classAndVrmInstance := val ++ ":" ++ toString inst }), .ret true)
        ∧ m.destroy.destroyed = true
        ∧ ThreePhaseMeter.role_changed tm st val =
          ((tm.destroy, { st with classAndVrmInstance := val ++ ":" ++ toString inst }), .ret true)
        ∧ tm.destroy.destroyed = true) := by
  intro m tm st val r0 inst h
  constructor
  · intro hv
    unfold SingleMeter.role_changed ThreePhaseMeter.role_changed
    simp only [hv]
    simp
  · intro hv hr
    unfold SingleMeter.role_changed ThreePhaseMeter.role_changed
    simp only [hv, hr, h]
    simp [SingleMeter.destroy, ThreePhaseMeter.destroy]

/-- C6, witness: an invalid role value is rejected without touching the
store, and a valid role change is accepted, rewrites the stored pair with
the preserved instance, and destroys the channel. -/
theorem role_changed_contract_witness :
    (SingleMeter.role_changed (mkSingle 0)
        { reachable := true, classAndVrmInstance := "grid:40", position := 0, phase := 1 }
        "boiler"
      = (((mkSingle 0),
          { reachable := true, classAndVrmInstance := "grid:40", position := 0, phase := 1 }),
         .ret false))
    ∧ (SingleMeter.role_changed (mkSingle 0)
        { reachable := true, classAndVrmInstance := "grid:40", position := 0, phase := 1 }
        "pvinverter"
      = (((mkSingle 0).destroy,
          { reachable := true, classAndVrmInstance := "pvinverter:40", position := 0, phase := 1 }),
         .ret true)) := by
  have h := role_changed_contract (mkSingle 0) mkThree
    { reachable := true, classAndVrmInstance := "grid:40", position := 0, phase := 1 }
  exact ⟨(h "boiler" "grid" 40 rfl).1 rfl |>.1,
         (h "pvinverter" "grid" 40 rfl).2 rfl rfl |>.1⟩

/-! ## C7 -/

/-- Settings view with localsettings currently unknown. -/
def strandedSettings : LocalSettings :=
  { reachable := false, classAndVrmInstance := "grid:40", position := 0, phase := 1 }

/-- Settings view with localsettings reachable. -/
def liveSettings : LocalSettings :=
  { reachable := true, classAndVrmInstance := "grid:40", position := 0, phase := 1 }

/-- C7, counterexample: the claim states the position callback accepts
exactly the values 0..2.  With the settings store unknown the code rejects
the in-range value 1 as well (`get_settings` returning None short-circuits
to False), so acceptance is not characterised by the range alone. -/
theorem position_changed_rejects_in_range_value :
    (SingleMeter.position_changed (mkSingle 0) strandedSettings 1).2 = .ret false
    ∧ (0 ≤ (1 : Int) ∧ (1 : Int) ≤ 2) := by
  exact ⟨rfl, by decide⟩

/-- C7, amended: for either channel variant, a position write is accepted
exactly when the value is in 0..2 AND the settings store is reachable, and
a phase write exactly when the value is in 1..3 AND the store is
reachable; every rejected write leaves the channel and the stored
configuration unchanged; every accepted position write persists the value,
and every accepted phase write persists the value and updates the
in-memory phase assignment used by subsequent updates. -/
theorem write_callbacks_amended :
    ∀ (m : SingleMeter) (tm : ThreePhaseMeter) (st : LocalSettings) (v : Int),
      ((SingleMeter.position_changed m st v).2 = .ret true ↔
        ((0 ≤ v ∧ v ≤ 2) ∧ st.reachable = true))
      ∧ ((SingleMeter.position_changed m st v).2 = .ret false →
          (SingleMeter.position_changed m st v).1 = (m, st))
      ∧ ((0 ≤ v ∧ v ≤ 2) → st.reachable = true →
          SingleMeter.position_changed m st v = ((m, { st with position := v }), .ret true))
      ∧ ((SingleMeter.phase_changed m st v).2 = .ret true ↔
          ((1 ≤ v ∧ v ≤ 3) ∧ st.reachable = true))
      ∧ ((SingleMeter.phase_changed m st v).2 = .ret false →
          (SingleMeter.phase_changed m st v).1 = (m, st))
      ∧ ((1 ≤ v ∧ v ≤ 3) → st.reachable = true →
          SingleMeter.phase_changed m st v =
            (({ m with phaseposition := v }, { st with phase := v }), .ret true))
      ∧ ((ThreePhaseMeter.position_changed tm st v).2 = .ret true ↔
          ((0 ≤ v ∧ v ≤ 2) ∧ st.reachable = true))
      ∧ ((ThreePhaseMeter.position_changed tm st v).2 = .ret false →
          (ThreePhaseMeter.position_changed tm st v).1 = (tm, st))
      ∧ ((ThreePhaseMeter.phase_changed tm st v).2 = .ret true ↔
          ((1 ≤ v ∧ v ≤ 3) ∧ st.reachable = true))
      ∧ ((ThreePhaseMeter.phase_changed tm st v).2 = .ret false →
          (ThreePhaseMeter.phase_changed tm st v).1 = (tm, st))
      ∧ ((1 ≤ v ∧ v ≤ 3) → st.reachable = true →
          ThreePhaseMeter.phase_changed tm st v =
            (({ tm with phase1position := v }, { st with phase := v }), .ret true))
      ∧ ((0 ≤ v ∧ v ≤ 2) → st.reachable = true →
          ThreePhaseMeter.position_changed tm st v = ((tm, { st with position := v }), .ret true)) := by
  intro m tm st v
  unfold SingleMeter.position_changed SingleMeter.phase_changed
    ThreePhaseMeter.position_changed ThreePhaseMeter.phase_changed
  by_cases h1 : (0 ≤ v ∧ v ≤ 2) <;> by_cases h3 : (1 ≤ v ∧ v ≤ 3) <;>
    by_cases h2 : st.reachable = true <;>
    simp_all

/-- C7, witness for the amended theorem: with the store reachable an
in-range phase write is accepted and applied in memory, an out-of-range
position write is rejected leaving everything unchanged, and an in-range
three-phase position write is accepted and persisted. -/
theorem write_callbacks_amended_witness :
    SingleMeter.phase_changed (mkSingle 1) liveSettings 2 =
      (({ mkSingle 1 with phaseposition := 2 }, { liveSettings with phase := 2 }), .ret true)
    ∧ (ThreePhaseMeter.position_changed mkThree liveSettings 5).1 = (mkThree, liveSettings)
    ∧ ThreePhaseMeter.position_changed mkThree liveSettings 1 =
        ((mkThree, { liveSettings with position := 1 }), .ret true) := by
  refine ⟨(write_callbacks_amended (mkSingle 1) mkThree liveSettings 2).2.2.2.2.2.1
    (by decide) rfl, ?_, ?_⟩
  · exact (write_callbacks_amended (mkSingle 1) mkThree liveSettings 5).2.2.2.2.2.2.2.1 rfl
  · exact (write_callbacks_amended (mkSingle 1) mkThree liveSettings 1).2.2.2.2.2.2.2.2.2.2.2
      (by decide) rfl

/-! ## C2 -/

/-- Every channel pair created strictly earlier than another channel of
the group has its destroyed flag set. -/
def earlierAllDestroyed (l : List (Nat × LocalMeter)) : Bool :=
  l.all (fun pr => l.all (fun qr => !(decide (pr.1 < qr.1)) || pr.2.destroyedFlag))

/-- No channel of the group holds a published service. -/
def noActive (l : List (Nat × LocalMeter)) : Bool :=
  l.all (fun pr => pr.2.serviceOf.isNone)

/-- When `SingleMeter.start` returns normally, the result is False and the
channel state is untouched: every success path is cut off by the NameError
at line 101, and every False path returns before mutating the channel. -/
theorem singleMeter_start_ret :
    ∀ (m : SingleMeter) (env : StartEnv) (data : Json) (m2 : SingleMeter) (b : Bool),
      SingleMeter.start m env data = (m2, .ret b) → b = false ∧ m2 = m := by
  intro m env data m2 b h
  unfold SingleMeter.start at h
  repeat' split at h
  all_goals try (generalize hri : role_instance (env.singleSettings m.meterid).classAndVrmInstance = rr at h; cases rr <;> simp_all)

/-- When `ThreePhaseMeter.start` returns False, the channel state is
untouched (no service was published). -/
theorem threePhaseMeter_start_ret_false :
    ∀ (m : ThreePhaseMeter) (env : StartEnv) (data : Json) (m2 : ThreePhaseMeter),
      ThreePhaseMeter.start m env data = (m2, .ret false) → m2 = m := by
  intro m env data m2 h
  unfold ThreePhaseMeter.start at h
  repeat' split at h
  all_goals try (generalize hri : role_instance env.threeSettings.classAndVrmInstance = rr at h; cases rr <;> simp_all)

/-- A classification loop started on channel id 0 from a fresh group and
returning normally reports False and leaves exactly the one fresh,
inactive, undestroyed channel object in the dict: the start of the first
channel never succeeds without raising, so no later channel is reached. -/
theorem runSingles_zero_ret :
    ∀ (env : StartEnv) (data : Json) (rest : List Nat) (g2 : PhysicalMeter)
      (r : Option Bool),
      PhysicalMeter.runSingles emptyGroup env data (0 :: rest) = (g2, some (.ret r)) →
      r = some false
      ∧ g2 = { destroyed := false,
               localmeters := [(0, .single (mkSingle 0))],
               localmeterskeys := [(0, ["em1:0", "em1data:0"])] } := by
  intro env data rest g2 r h
  unfold PhysicalMeter.runSingles at h
  cases hs : SingleMeter.start (mkSingle 0) env data with
  | mk m2 out =>
    cases out with
    | exn e => simp only [hs] at h; simp_all
    | ret b =>
      obtain ⟨hb, hm⟩ := singleMeter_start_ret _ _ _ _ _ hs
      subst hb
      subst hm
      simp only [hs] at h
      simp [dictSet, emptyGroup] at h
      obtain ⟨h1, h2⟩ := h
      exact ⟨h2.symm, h1.symm⟩

/-- C2: whenever `PhysicalMeter.start` on a fresh group reports failure as
its overall boolean result, every channel created earlier than another
channel of the run has been destroyed, and no channel of the group holds a
published service — the group ends with zero active channels.  (In every
reachable failing run the failing channel is the first one created, since
a single-phase channel start can never return success.) -/
theorem physicalMeter_start_failure_all_or_nothing :
    ∀ (env : StartEnv) (data : Json) (g2 : PhysicalMeter),
      PhysicalMeter.start emptyGroup env data = (g2, .ret (some false)) →
      earlierAllDestroyed g2.localmeters = true ∧ noActive g2.localmeters = true := by
  intro env data g2 h
  unfold PhysicalMeter.start at h
  cases hres : data.getItem "result" with
  | error e =>
    simp only [hres] at h
    cases e
    · simp at h; subst h; exact ⟨rfl, rfl⟩
    all_goals simp at h
  | ok res =>
  simp only [hres] at h
  cases hmod : res.getItem "model" with
  | error e =>
    simp only [hmod] at h
    cases e
    · simp at h; subst h; exact ⟨rfl, rfl⟩
    all_goals simp at h
  | ok model =>
  simp only [hmod] at h
  cases happ : res.getItem "app" with
  | error e =>
    simp only [happ] at h
    cases e
    · simp at h; subst h; exact ⟨rfl, rfl⟩
    all_goals simp at h
  | ok app =>
  simp only [happ] at h
  by_cases hpe : (model.eqStr "SPEM-002CEBEU50" && app.eqStr "ProEM") = true
  · rw [if_pos hpe] at h
    cases hrs : PhysicalMeter.runSingles emptyGroup env data [0, 1] with
    | mk g3 o =>
      cases o with
      | none => simp only [hrs] at h; simp at h
      | some out =>
        simp only [hrs] at h
        injection h with h1 h2
        subst h2
        rw [← h1]
        obtain ⟨hr, hgeq⟩ := runSingles_zero_ret env data [1] g3 (some false) hrs
        rw [hgeq]
        exact ⟨rfl, rfl⟩
  · rw [if_neg hpe] at h
    by_cases h3e : (model.eqStr "SPEM-003CEBEU" && app.eqStr "Pro3EM") = true
    · rw [if_pos h3e] at h
      cases hprof : res.getItem "profile" with
      | error e =>
        simp only [hprof] at h
        cases e
        · simp at h; subst h; exact ⟨rfl, rfl⟩
        all_goals simp at h
      | ok profile =>
      simp only [hprof] at h
      by_cases hmono : profile.eqStr "monophase" = true
      · rw [if_pos hmono] at h
        cases hrs : PhysicalMeter.runSingles emptyGroup env data [0, 1, 2] with
        | mk g3 o =>
          cases o with
          | none => simp only [hrs] at h; simp at h
          | some out =>
            simp only [hrs] at h
            injection h with h1 h2
            subst h2
            rw [← h1]
            obtain ⟨hr, hgeq⟩ := runSingles_zero_ret env data [1, 2] g3 (some false) hrs
            rw [hgeq]
            exact ⟨rfl, rfl⟩
      · rw [if_neg hmono] at h
        cases hts : ThreePhaseMeter.start mkThree env data with
        | mk m2 o =>
          cases o with
          | exn e => simp only [hts] at h; simp at h
          | ret b =>
            cases b with
            | true => simp only [hts] at h; simp at h
            | false =>
              have hm := threePhaseMeter_start_ret_false mkThree env data m2 hts
              subst hm
              simp only [hts] at h
              injection h with h1 h2
              rw [← h1]
              exact ⟨rfl, rfl⟩
    · rw [if_neg h3e] at h
      simp at h; subst h; exact ⟨rfl, rfl⟩

/-- C2, witness: the two-channel handshake with the settings store never
becoming reachable — the configure step of the first channel fails, the group
reports failure, and the group has no active channel. -/
theorem physicalMeter_start_failure_all_or_nothing_witness :
    earlierAllDestroyed
      (PhysicalMeter.start emptyGroup unreachableEnv (proemHandshake "08f9e0aabbcc" "1.0.0")).1.localmeters = true
    ∧ noActive
      (PhysicalMeter.start emptyGroup unreachableEnv (proemHandshake "08f9e0aabbcc" "1.0.0")).1.localmeters = true :=
  physicalMeter_start_failure_all_or_nothing unreachableEnv
    (proemHandshake "08f9e0aabbcc" "1.0.0")
    (PhysicalMeter.start emptyGroup unreachableEnv (proemHandshake "08f9e0aabbcc" "1.0.0")).1
    (by rfl)

/-! ## C4 -/

/-- A live telemetry block carrying all nine per-phase fields. -/
def liveFrame3 (av bv cv ai bi ci ap bp cp : ℚ) : Json :=
  .obj [("helpertag", .str "em:0"),
        ("a_voltage", .num av), ("b_voltage", .num bv), ("c_voltage", .num cv),
        ("a_current", .num ai), ("b_current", .num bi), ("c_current", .num ci),
        ("a_act_power", .num ap), ("b_act_power", .num bp), ("c_act_power", .num cp)]

set_option maxHeartbeats 2000000 in
/-- C4: for every live block carrying the three physical per-phase power
fields (together with the voltage and current fields the same write pass
reads), and for every configured phase-1 position p in 1..3, the value the
three-phase channel publishes to /Ac/Power is the unrotated physical sum
a + b + c, independent of p. -/
theorem threePhase_ac_power_unrotated_sum :
    ∀ (p : Int), (p = 1 ∨ p = 2 ∨ p = 3) →
    ∀ (av bv cv ai bi ci ap bp cp : ℚ) (env : StartEnv) (role : String)
      (nameOpt : Option Json) (fw : Json) (inst phase1 posVal : Int) (bn : String),
      Option.map (fun s => List.lookup "/Ac/Power" s.items)
        ((ThreePhaseMeter.update
          ⟨false, p, some ⟨bn, ThreePhaseMeter.serviceItems env role nameOpt fw inst phase1 posVal⟩⟩
          (liveFrame3 av bv cv ai bi ci ap bp cp)).1.service)
        = some (some (.num (ap + bp + cp))) := by
  intro p hp av bv cv ai bi ci ap bp cp env role nameOpt fw inst phase1 posVal bn
  rcases hp with rfl | rfl | rfl <;> rcases nameOpt with _ | nm <;>
    rcases hpv : role == "pvinverter" <;>
    simp [ThreePhaseMeter.update, ThreePhaseMeter.updateBody, ThreePhaseMeter.serviceItems,
      ThreePhaseMeter.liveWrites, withService, runWrites, Service.setItem, keyedField,
      phaseLetter, pyIndex, phaseorder, sumAbc, pyAdd, Json.getItem, liveFrame3, hpv,
      pyStartsWith, pyStartsWithAux, List.lookup]

/-- C4, witness: the scenario values of the spec at phase-1 position 2 — the
published aggregate power is 230 + 231 + 229 = 690 W. -/
theorem threePhase_ac_power_unrotated_sum_witness :
    Option.map (fun s => List.lookup "/Ac/Power" s.items)
      ((ThreePhaseMeter.update
        ⟨false, 2, some ⟨"bus", ThreePhaseMeter.serviceItems reachableEnv "grid" none (.str "1.0") 40 2 0⟩⟩
        (liveFrame3 230 231 229 1 1 1 230 231 229)).1.service)
      = some (some (.num 690)) := by
  have h := threePhase_ac_power_unrotated_sum 2 (Or.inr (Or.inl rfl))
    230 231 229 1 1 1 230 231 229 reachableEnv "grid" none (.str "1.0") 40 2 0 "bus"
  have e : ((230 : ℚ) + 231 + 229) = 690 := by norm_num
  rw [e] at h
  exact h

/-! ## C10 -/

/-- Decimal rendering of the integer 1 (used to evaluate metric paths). -/
theorem toString_int_one : toString (1 : Int) = "1" := rfl

/-- Decimal rendering of the integer 2 (used to evaluate metric paths). -/
theorem toString_int_two : toString (2 : Int) = "2" := rfl

/-- Decimal rendering of the integer 3 (used to evaluate metric paths). -/
theorem toString_int_three : toString (3 : Int) = "3" := rfl

/-- A complete single-phase live block (voltage, current, power). -/
def liveFrame1 (v c pw : ℚ) : Json :=
  .obj [("helpertag", .str "em:0"),
        ("voltage", .num v), ("current", .num c), ("act_power", .num pw)]

set_option maxHeartbeats 2000000 in
/-- C10: a single-phase channel registered with its per-phase points under
/Ac/L p (the item set of the start registration code) that accepts a phase
change to q different from p keeps its service items untouched: the
accepted write only updates the in-memory assignment, every subsequent
live update targets /Ac/L q paths that were never registered, so the
first write of the update fails, no published point changes, and the whole
update is a no-op on the channel state.  The targeted voltage path is
indeed absent from the registered item set. -/
theorem single_phase_change_stale_paths :
    ∀ (p q : Int), (p = 1 ∨ p = 2 ∨ p = 3) → (q = 1 ∨ q = 2 ∨ q = 3) → p ≠ q →
    ∀ (v c pw : ℚ) (env : StartEnv) (role : String) (nameOpt : Option String)
      (fw : Json) (inst posVal : Int) (bn : String) (st : LocalSettings),
      st.reachable = true →
      (SingleMeter.phase_changed
          ⟨0, false, p, some ⟨bn, SingleMeter.serviceItems env role nameOpt fw inst p posVal⟩⟩ st q)
        = ((⟨0, false, q, some ⟨bn, SingleMeter.serviceItems env role nameOpt fw inst p posVal⟩⟩,
            { st with phase := q }), .ret true)
      ∧ SingleMeter.update
          ⟨0, false, q, some ⟨bn, SingleMeter.serviceItems env role nameOpt fw inst p posVal⟩⟩
          (liveFrame1 v c pw)
          = (⟨0, false, q, some ⟨bn, SingleMeter.serviceItems env role nameOpt fw inst p posVal⟩⟩, .ret ())
      ∧ List.lookup ("/Ac/L" ++ toString q ++ "/Voltage")
          (SingleMeter.serviceItems env role nameOpt fw inst p posVal) = none := by
  intro p q hp hq hne v c pw env role nameOpt fw inst posVal bn st hst
  rcases hp with rfl | rfl | rfl <;> rcases hq with rfl | rfl | rfl <;>
    first
      | exact absurd rfl hne
      | (rcases nameOpt with _ | nm <;> rcases hpv : role == "pvinverter" <;>
          refine ⟨?_, ?_, ?_⟩ <;>
          simp [SingleMeter.phase_changed, hst, SingleMeter.update, SingleMeter.updateBlock1,
            SingleMeter.updateBlock2, SingleMeter.serviceItems, SingleMeter.liveWrites,
            withService, runWrites, Service.setItem, Json.getItem, Json.dictGet, optIsNotify,
            liveFrame1, hpv, pyStartsWith, pyStartsWithAux, List.lookup,
            toString_int_one, toString_int_two, toString_int_three])

/-- C10, witness: a channel registered for phase 1 and switched to phase 2
drops a complete live frame without touching any registered point, and the
/Ac/L2/Voltage path it targets is not registered. -/
theorem single_phase_change_stale_paths_witness :
    SingleMeter.update
      ⟨0, false, 2, some ⟨"bus", SingleMeter.serviceItems reachableEnv "grid" none (.str "1.0") 40 1 0⟩⟩
      (liveFrame1 230 1 230)
      = (⟨0, false, 2, some ⟨"bus", SingleMeter.serviceItems reachableEnv "grid" none (.str "1.0") 40 1 0⟩⟩, .ret ())
    ∧ List.lookup ("/Ac/L" ++ toString (2 : Int) ++ "/Voltage")
        (SingleMeter.serviceItems reachableEnv "grid" none (.str "1.0") 40 1 0) = none :=
  ⟨(single_phase_change_stale_paths 1 2 (Or.inl rfl) (Or.inr (Or.inl rfl)) (by decide)
      230 1 230 reachableEnv "grid" none (.str "1.0") 40 0 "bus" liveSettings rfl).2.1,
   (single_phase_change_stale_paths 1 2 (Or.inl rfl) (Or.inr (Or.inl rfl)) (by decide)
      230 1 230 reachableEnv "grid" none (.str "1.0") 40 0 "bus" liveSettings rfl).2.2⟩

/-! ## C8 -/

/-- C8, counterexample: the claim states a monophase-profile handshake of
the three-line device yields exactly three single-phase channels.  On this
handshake the per-channel `SingleMeter.start` re-checks the two-channel
model pair against the three-line identity and fails immediately, so
classification stops after creating only the first channel object and
reports failure. -/
theorem classifier_monophase_not_three_channels :
    (PhysicalMeter.start emptyGroup reachableEnv
        (pro3emHandshake "08f9e0aabbcc" "1.0" (some (.str "monophase")))).2 = .ret (some false)
    ∧ (PhysicalMeter.start emptyGroup reachableEnv
        (pro3emHandshake "08f9e0aabbcc" "1.0" (some (.str "monophase")))).1.localmeters.length = 1 :=
  ⟨by rfl, by rfl⟩

/-- Evaluation rule for the frame-value string comparison. -/
theorem eqStr_str (a b : String) : Json.eqStr (.str a) b = (a == b) := rfl

set_option maxHeartbeats 2000000 in
/-- C8, amended: for a three-line handshake with the required identity
fields, (i) a missing profile field makes classification fail with no
channel created, (ii) a monophase profile makes classification fail after
creating a single inert single-phase channel object (the per-channel start
re-checks the two-channel model pair and rejects the three-line
handshake), and (iii) any present profile other than monophase yields
exactly one three-phase channel at index 0, holding a published service,
bound to the telemetry keys em:0 and emdata:0 (the classification chain
then falls off the commented-out tail of the function, returning None). -/
theorem classifier_amended :
    ∀ (mac fw : String) (env : StartEnv) (r : String) (inst : Int),
      env.reachable = true →
      role_instance env.threeSettings.classAndVrmInstance = .ok (r, inst) →
      (PhysicalMeter.start emptyGroup env (pro3emHandshake mac fw none)
        = (emptyGroup, .ret (some false)))
      ∧ ((PhysicalMeter.start emptyGroup env
            (pro3emHandshake mac fw (some (.str "monophase")))).2 = .ret (some false)
         ∧ (PhysicalMeter.start emptyGroup env
            (pro3emHandshake mac fw (some (.str "monophase")))).1.localmeters
           = [(0, .single (mkSingle 0))])
      ∧ (∀ pj : Json, pj.eqStr "monophase" = false →
          ∃ tm : ThreePhaseMeter,
            (PhysicalMeter.start emptyGroup env (pro3emHandshake mac fw (some pj))).1.localmeters
              = [(0, .three tm)]
            ∧ tm.service.isSome = true
            ∧ (PhysicalMeter.start emptyGroup env (pro3emHandshake mac fw (some pj))).1.localmeterskeys
              = [(0, ["em:0", "emdata:0"])]
            ∧ (PhysicalMeter.start emptyGroup env (pro3emHandshake mac fw (some pj))).2 = .ret none) := by
  intro mac fw env r inst henv hri
  refine ⟨?_, ?_, ?_⟩
  · simp [PhysicalMeter.start, pro3emHandshake, Json.getItem, Json.eqStr, List.lookup, emptyGroup]
  · constructor <;>
      simp [PhysicalMeter.start, PhysicalMeter.runSingles, SingleMeter.start, pro3emHandshake,
        Json.getItem, Json.eqStr, Json.asStr, List.lookup, dictSet, mkSingle, emptyGroup]
  · intro pj hpj
    refine ⟨⟨false, env.threeSettings.phaseVal, some ⟨"com.victronenergy." ++ r ++ ".shelly_" ++ mac,
      ThreePhaseMeter.serviceItems env r none (.str fw) inst env.threeSettings.phaseVal
        env.threeSettings.positionVal⟩⟩, ?_, rfl, ?_, ?_⟩ <;>
      simp [PhysicalMeter.start, ThreePhaseMeter.start, pro3emHandshake,
        Json.getItem, eqStr_str, Json.asStr, List.lookup, dictSet, mkThree, emptyGroup,
        henv, hri, hpj, Except.toOption]

/-- C8, witness for the amended theorem: with the store reachable and the
default stored pair, a handshake with profile "triphase" yields exactly
one three-phase channel bound to em:0 and emdata:0. -/
theorem classifier_amended_witness :
    ∃ tm : ThreePhaseMeter,
      (PhysicalMeter.start emptyGroup reachableEnv
        (pro3emHandshake "08f9e0aabbcc" "1.0" (some (.str "triphase")))).1.localmeters
        = [(0, .three tm)]
      ∧ tm.service.isSome = true
      ∧ (PhysicalMeter.start emptyGroup reachableEnv
          (pro3emHandshake "08f9e0aabbcc" "1.0" (some (.str "triphase")))).1.localmeterskeys
        = [(0, ["em:0", "emdata:0"])]
      ∧ (PhysicalMeter.start emptyGroup reachableEnv
          (pro3emHandshake "08f9e0aabbcc" "1.0" (some (.str "triphase")))).2 = .ret none :=
  (classifier_amended "08f9e0aabbcc" "1.0" reachableEnv "grid" 40 rfl rfl).2.2
    (.str "triphase") rfl
